import Mathlib

/-!
Shallow embedding of the aqua-adventure game core (tacyan/aqua-adventure).

Python floats are modelled as rationals (ℚ); pygame `Rect` coordinates are
machine integers (ℤ); pygame's float→int coordinate assignment truncates
toward zero, modelled by `pyInt`.  The repository contains two parallel
game loops: the top-level `src/main.py` (collision pass with `isAlive`
gates, `bubble.hit()`, and dead-enemy removal) and the package loop
`src/src/game/main.py` (`Game.checkCollisions`, no gates, no removal);
both are embedded below.
-/

/-- Truncation of a Python float (here ℚ) toward zero, as performed by
`int(...)` / pygame rect coordinate assignment. -/
def pyInt (q : ℚ) : ℤ := Int.tdiv q.num q.den

/-- 2-D float vector, after `pygame.math.Vector2`. -/
@[ext]
structure Vec2 where
  x : ℚ
  y : ℚ
deriving DecidableEq, Repr

/-- Componentwise vector addition (`Vector2.__add__`). -/
def vadd (a b : Vec2) : Vec2 := ⟨a.x + b.x, a.y + b.y⟩

/-- Scalar multiplication (`Vector2.__mul__`). -/
def vscale (k : ℚ) (v : Vec2) : Vec2 := ⟨k * v.x, k * v.y⟩

/-- Integer axis-aligned rectangle, after `pygame.Rect`.
`left = x`, `right = x + w`, `top = y`, `bottom = y + h`. -/
structure Rect where
  x : ℤ
  y : ℤ
  w : ℤ
  h : ℤ
deriving DecidableEq, Repr

/-- Rectangle overlap test, after pygame's `Rect.colliderect` /
`pygame.sprite.collide_rect` (strict inequalities; edge contact is not
a collision). -/
def Rect.colliderect (a b : Rect) : Bool :=
  decide (a.x < b.x + b.w) && decide (a.x + a.w > b.x) &&
  decide (a.y < b.y + b.h) && decide (a.y + a.h > b.y)

/-- Projectile state, after `src/src/game/bubble.py` `Bubble.__init__`
(image/drawing fields omitted; `rect` is 16×16 centred on `position`). -/
structure Bubble where
  position : Vec2
  velocity : Vec2
  rect : Rect
  power : ℤ
  lifetime : ℤ
  isActive : Bool
deriving DecidableEq, Repr

/-- Bubble construction (`Bubble.__init__`): velocity is `direction * 8.0`,
lifetime 60, active; `rect.center = (x, y)` puts the 16×16 box at
`(int(x) - 8, int(y) - 8)`. -/
def mkBubble (x y : ℚ) (dir : Vec2) (power : ℤ) : Bubble :=
  { position := ⟨x, y⟩
    velocity := vscale 8 dir
    rect := ⟨pyInt x - 8, pyInt y - 8, 16, 16⟩
    power := power
    lifetime := 60
    isActive := true }

/-- One call of `Bubble.update`, returning (return value, new state):
inactive bubbles return false; lifetime is decremented and the bubble
deactivated at `lifetime <= 0`; otherwise the position advances by the
velocity, the rect is re-centred, and the bubble deactivates when the
rect fully leaves the 800×600 arena. -/
def bubbleUpdate (b : Bubble) : Bool × Bubble :=
  if b.isActive = false then (false, b)
  else
    let b1 := { b with lifetime := b.lifetime - 1 }
    if b1.lifetime ≤ 0 then (false, { b1 with isActive := false })
    else
      let p := vadd b1.position b1.velocity
      let b2 := { b1 with
        position := p
        rect := { b1.rect with x := pyInt p.x - 8, y := pyInt p.y - 8 } }
      if b2.rect.x + b2.rect.w < 0 ∨ b2.rect.x > 800 ∨
         b2.rect.y + b2.rect.h < 0 ∨ b2.rect.y > 600
      then (false, { b2 with isActive := false })
      else (true, b2)

/-- `Bubble.hit`: mark the bubble inactive. -/
def Bubble.hit (b : Bubble) : Bubble := { b with isActive := false }

/-- State of a bubble after `n` calls of `Bubble.update`. -/
def bubbleRun : ℕ → Bubble → Bubble
  | 0, b => b
  | n + 1, b => (bubbleUpdate (bubbleRun n b)).2

/-- Return value of the `(n+1)`-th call of `Bubble.update` (so `n = 0`
is the first call). -/
def bubbleNthCall (n : ℕ) (b : Bubble) : Bool :=
  (bubbleUpdate (bubbleRun n b)).1

/-- The in-arena condition `Bubble.update` tests after moving to
position `p` (negation of its exit test, on the re-centred 16×16 rect). -/
def bubbleInArena (p : Vec2) : Prop :=
  ¬((pyInt p.x - 8) + 16 < 0 ∨ pyInt p.x - 8 > 800 ∨
    (pyInt p.y - 8) + 16 < 0 ∨ pyInt p.y - 8 > 600)

instance (p : Vec2) : Decidable (bubbleInArena p) := by
  unfold bubbleInArena; infer_instance

/-- Keyboard snapshot for one tick (the keys `Player.handleInput` reads). -/
structure Keys where
  left : Bool
  right : Bool
  up : Bool
  down : Bool
  shift : Bool
  space : Bool
deriving DecidableEq, Repr

/-- No key held. -/
def noKeys : Keys := ⟨false, false, false, false, false, false⟩

/-- Only the dash key (left shift) held. -/
def dashKeys : Keys := ⟨false, false, false, false, true, false⟩

/-- Player state, after `src/src/game/player.py` `Player.__init__`
(image/animation fields omitted; the rect is 48×48). -/
structure Player where
  position : Vec2
  velocity : Vec2
  acceleration : Vec2
  rect : Rect
  maxHp : ℤ
  hp : ℤ
  maxStamina : ℚ
  stamina : ℚ
  maxOxygen : ℚ
  oxygen : ℚ
  power : ℤ
  currentBubbleCooldown : ℤ
  isDashing : Bool
  isInvincible : Bool
  facingRight : Bool
  bubbles : List Bubble
deriving DecidableEq, Repr

/-- `Player.MOVE_SPEED` (5.0). -/
def MOVE_SPEED : ℚ := 5

/-- `Player.DASH_SPEED` (8.0), used as the dash acceleration multiplier. -/
def DASH_SPEED : ℚ := 8

/-- `Player.DASH_COST` (20). -/
def DASH_COST : ℚ := 20

/-- `Player.WATER_RESISTANCE` (0.9), the drag coefficient. -/
def WATER_RESISTANCE : ℚ := 9 / 10

/-- `Player.BUBBLE_COOLDOWN` (20 frames). -/
def BUBBLE_COOLDOWN : ℤ := 20

/-- `Player.__init__(x, y)` for integer pixel arguments: the 48×48 rect is
centred on `(x, y)`, `position` copies the rect corner, all gauges start
at their maxima of 100, `power = 10`, cooldown 0, all flags false except
`facingRight`, no bubbles. -/
def mkPlayer (x y : ℤ) : Player :=
  { position := ⟨((x - 24 : ℤ) : ℚ), ((y - 24 : ℤ) : ℚ)⟩
    velocity := ⟨0, 0⟩
    acceleration := ⟨0, 0⟩
    rect := ⟨x - 24, y - 24, 48, 48⟩
    maxHp := 100
    hp := 100
    maxStamina := 100
    stamina := 100
    maxOxygen := 100
    oxygen := 100
    power := 10
    currentBubbleCooldown := 0
    isDashing := false
    isInvincible := false
    facingRight := true
    bubbles := [] }

/-- The player created by both game loops: `Player(800 // 2, 600 // 2)`. -/
def initPlayer : Player := mkPlayer 400 300

/-- `Player.shootBubble`: fire direction from `facingRight`, spawn at
`rect.centerx ± 20` (centerx = `rect.x + 24` for the 48-wide rect) and
`rect.centery`, with the player's `power`; the new bubble is appended. -/
def shootBubble (s : Player) : Player :=
  let dir : Vec2 := ⟨if s.facingRight then 1 else -1, 0⟩
  let bx : ℚ := ((s.rect.x + 24 + (if s.facingRight then 20 else -20) : ℤ) : ℚ)
  let by' : ℚ := ((s.rect.y + 24 : ℤ) : ℚ)
  { s with bubbles := s.bubbles ++ [mkBubble bx by' dir s.power] }

/-- `Player.handleInput` for one key snapshot: the four direction keys are
checked in the order left, right, up, down, each assignment overwriting
the previous one on its axis; the dash key sets `isDashing` and drains
`DASH_COST * 0.016` stamina only under the `stamina >= DASH_COST` guard,
else clears `isDashing`; the fire key shoots only when the cooldown is
non-positive and then resets it to `BUBBLE_COOLDOWN`. -/
def handleInput (k : Keys) (s0 : Player) : Player :=
  let s1 := { s0 with
    acceleration := ⟨(if k.right then MOVE_SPEED else
                        if k.left then -MOVE_SPEED else 0),
                     (if k.down then MOVE_SPEED else
                        if k.up then -MOVE_SPEED else 0)⟩
    facingRight := if k.right then true else
                     if k.left then false else s0.facingRight }
  let s2 :=
    if k.shift = true ∧ DASH_COST ≤ s1.stamina then
      { s1 with isDashing := true, stamina := s1.stamina - DASH_COST * (16 / 1000) }
    else
      { s1 with isDashing := false }
  if k.space = true ∧ s2.currentBubbleCooldown ≤ 0 then
    { shootBubble s2 with currentBubbleCooldown := BUBBLE_COOLDOWN }
  else s2

/-- `Player.updateBubbles`: update every owned bubble and keep those whose
`update()` returned true. -/
def updateBubbles (s : Player) : Player :=
  { s with bubbles := s.bubbles.filterMap (fun b =>
      let r := bubbleUpdate b
      if r.1 then some r.2 else none) }

/-- `Player.regenerateStatus`: stamina regenerates by 0.5 (capped at max)
when not dashing and below max; oxygen depletes by 0.1 (floored at 0). -/
def regenerateStatus (s : Player) : Player :=
  let s1 :=
    if s.isDashing = false ∧ s.stamina < s.maxStamina then
      { s with stamina := min s.maxStamina (s.stamina + 1 / 2) }
    else s
  { s1 with oxygen := max 0 (s1.oxygen - 1 / 10) }

/-- `Player.constrainToScreen`: clamp the rect to the 800×600 arena,
copying the clamped coordinate back to `position` and zeroing the
velocity component of every clamped axis. -/
def Player.constrainToScreen (s : Player) : Player :=
  let s1 :=
    if s.rect.x < 0 then
      { s with rect := { s.rect with x := 0 }
               position := { s.position with x := 0 }
               velocity := { s.velocity with x := 0 } }
    else if s.rect.x + s.rect.w > 800 then
      { s with rect := { s.rect with x := 800 - s.rect.w }
               position := { s.position with x := ((800 - s.rect.w : ℤ) : ℚ) }
               velocity := { s.velocity with x := 0 } }
    else s
  if s1.rect.y < 0 then
    { s1 with rect := { s1.rect with y := 0 }
              position := { s1.position with y := 0 }
              velocity := { s1.velocity with y := 0 } }
  else if s1.rect.y + s1.rect.h > 600 then
    { s1 with rect := { s1.rect with y := 600 - s1.rect.h }
              position := { s1.position with y := ((600 - s1.rect.h : ℤ) : ℚ) }
              velocity := { s1.velocity with y := 0 } }
  else s1

/-- Cooldown decrement of `Player.update`: `currentBubbleCooldown` steps
down by 1 while positive. -/
def cooldownStep (s : Player) : Player :=
  if s.currentBubbleCooldown > 0 then
    { s with currentBubbleCooldown := s.currentBubbleCooldown - 1 }
  else s

/-- Physics integration of `Player.update` (lines 128–140):
`v' = (v + a_eff) * WATER_RESISTANCE` with `a_eff = a * DASH_SPEED` while
dashing, then `position += v'` and the rect coordinates are synced from
the (truncated) position. -/
def physicsStep (s : Player) : Player :=
  let aeff := if s.isDashing = true then vscale DASH_SPEED s.acceleration
              else s.acceleration
  let v := vscale WATER_RESISTANCE (vadd s.velocity aeff)
  let p := vadd s.position v
  { s with
    velocity := v
    position := p
    rect := { s.rect with x := pyInt p.x, y := pyInt p.y } }

/-- `Player.update` for one tick: input handling, cooldown decrement,
physics integration, bubble updates, status regeneration, and the arena
clamp, in the source's order (the image flip between input handling and
the cooldown decrement is presentation-only and omitted). -/
def playerUpdate (k : Keys) (s : Player) : Player :=
  Player.constrainToScreen
    (regenerateStatus (updateBubbles (physicsStep (cooldownStep (handleInput k s)))))

/-- `Player.takeDamage`: no-op while invincible; otherwise floor the hp at
0 and set `isInvincible` (the source comment defers the invincibility
timer: "無敵時間の処理は後で実装"). -/
def Player.takeDamage (s : Player) (damage : ℤ) : Player :=
  if s.isInvincible = false then
    { s with hp := max 0 (s.hp - damage), isInvincible := true }
  else s

/-- `Player.heal`: add, capped at `maxHp`. -/
def Player.heal (s : Player) (amount : ℤ) : Player :=
  { s with hp := min s.maxHp (s.hp + amount) }

/-- Player state after ticks `0, …, n-1` with per-tick key snapshots `f`. -/
def playerRun (f : ℕ → Keys) : ℕ → Player → Player
  | 0, s => s
  | n + 1, s => playerUpdate (f n) (playerRun f n s)

/-- Enemy state, after `src/src/game/enemy.py` `Enemy.__init__`
(animation/image fields omitted; the rect is 32×32). -/
structure Enemy where
  position : Vec2
  velocity : Vec2
  rect : Rect
  maxHp : ℤ
  hp : ℤ
  damage : ℤ
  moveSpeed : ℚ
  isAlive : Bool
  facingRight : Bool
deriving DecidableEq, Repr

/-- `Enemy.die`: clear `isAlive` (drops/effects deferred in the source). -/
def Enemy.die (e : Enemy) : Enemy := { e with isAlive := false }

/-- `Enemy.takeDamage`: floor the hp at 0 (the animation-state change is
presentation-only and omitted) and call `die()` when it reaches 0. -/
def Enemy.takeDamage (e : Enemy) (damage : ℤ) : Enemy :=
  let e1 := { e with hp := max 0 (e.hp - damage) }
  if e1.hp ≤ 0 then e1.die else e1

/-- `Enemy.constrainToScreen`: clamp the rect to the 800×600 arena and
copy the clamped coordinate back to `position`; unlike the player's
clamp, the velocity is left untouched. -/
def Enemy.constrainToScreen (e : Enemy) : Enemy :=
  let e1 :=
    if e.rect.x < 0 then
      { e with rect := { e.rect with x := 0 }
               position := { e.position with x := 0 } }
    else if e.rect.x + e.rect.w > 800 then
      { e with rect := { e.rect with x := 800 - e.rect.w }
               position := { e.position with x := ((800 - e.rect.w : ℤ) : ℚ) } }
    else e
  if e1.rect.y < 0 then
    { e1 with rect := { e1.rect with y := 0 }
              position := { e1.position with y := 0 } }
  else if e1.rect.y + e1.rect.h > 600 then
    { e1 with rect := { e1.rect with y := 600 - e1.rect.h }
              position := { e1.position with y := ((600 - e1.rect.h : ℤ) : ℚ) } }
  else e1

/-- `Jellyfish.__init__(x, y)`: a 32×32 enemy with hp 5, damage 10 and
moveSpeed 1.5 (oscillation bookkeeping omitted — the collision claims do
not run the enemy movement step). -/
def mkJellyfish (x y : ℤ) : Enemy :=
  { position := ⟨(x : ℚ), (y : ℚ)⟩
    velocity := ⟨0, 0⟩
    rect := ⟨x, y, 32, 32⟩
    maxHp := 5
    hp := 5
    damage := 10
    moveSpeed := 3 / 2
    isAlive := true
    facingRight := true }

/-!
Collision pass of the top-level loop `src/main.py` `Game.update`
(lines 90–103): first the bubble↔enemy double loop, gated on
`enemy.isAlive`, dealing `player.power` damage and calling `bubble.hit()`
(the loop does not re-check the bubble's own activity); then the
player↔enemy loop, also gated on `enemy.isAlive`; finally dead enemies
are filtered out of the collection.
-/

/-- Inner `for enemy in self.enemies` loop of the bubble↔enemy check in
`src/main.py`, threading the (possibly hit) bubble through the
in-place-updated enemy list. -/
def rootBubbleEnemyFold (power : ℤ) (b : Bubble) (es : List Enemy) :
    Bubble × List Enemy :=
  es.foldl
    (fun acc e =>
      if acc.1.rect.colliderect e.rect = true ∧ e.isAlive = true then
        (acc.1.hit, acc.2 ++ [e.takeDamage power])
      else (acc.1, acc.2 ++ [e]))
    (b, [])

/-- Outer `for bubble in self.player.bubbles` loop of the bubble↔enemy
check in `src/main.py`. -/
def rootBubblesPass (power : ℤ) (bs : List Bubble) (es : List Enemy) :
    List Bubble × List Enemy :=
  bs.foldl
    (fun acc b =>
      let r := rootBubbleEnemyFold power b acc.2
      (acc.1 ++ [r.1], r.2))
    ([], es)

/-- Player↔enemy loop of `src/main.py`: every live colliding enemy deals
its damage to the player (the first hit raises `isInvincible`, silencing
the rest). -/
def rootPlayerEnemyPass (p : Player) (es : List Enemy) : Player :=
  es.foldl
    (fun q e =>
      if q.rect.colliderect e.rect = true ∧ e.isAlive = true then
        q.takeDamage e.damage
      else q)
    p

/-- Full collision-and-removal tail of `src/main.py` `Game.update`
(bubble↔enemy pass, then player↔enemy pass, then
`enemies = [e for e in enemies if e.isAlive]`), on post-movement states. -/
def rootCollisionAndRemoval (p : Player) (es : List Enemy) :
    Player × List Enemy :=
  let r := rootBubblesPass p.power p.bubbles es
  let p1 := rootPlayerEnemyPass { p with bubbles := r.1 } r.2
  (p1, r.2.filter (fun e => e.isAlive))

/-- Damage dealt by one bubble to every overlapping enemy in
`Game.checkCollisions` (`src/src/game/main.py`): no `isAlive` gate, no
`hit()`, each enemy takes `bubble.power`. -/
def bubbleDamageFold (b : Bubble) (es : List Enemy) : List Enemy :=
  es.map (fun e =>
    if b.rect.colliderect e.rect = true then e.takeDamage b.power else e)

/-- `Game.checkCollisions` of `src/src/game/main.py` (lines 303–316):
first the player↔enemy loop (ungated — even dead enemies damage the
player), then the bubble↔enemy double loop (ungated, bubbles are never
deactivated); the enemy collection is never filtered. -/
def checkCollisions (p : Player) (es : List Enemy) : Player × List Enemy :=
  let p1 := es.foldl
    (fun q e =>
      if q.rect.colliderect e.rect = true then q.takeDamage e.damage else q)
    p
  (p1, p1.bubbles.foldl (fun acc b => bubbleDamageFold b acc) es)

/-- Game states, after `src/src/game/game_state.py` `GameState`. -/
inductive GameState where
  | TITLE
  | PLAYING
  | PAUSED
  | GAME_OVER
deriving DecidableEq, Repr

/-- Scene manager state, after `SceneManager.__init__` (the transition
surface and the handler tables are presentation plumbing; the handlers
are passed explicitly to `smUpdate` below). -/
structure SceneManager where
  currentState : GameState
  nextState : Option GameState
  isTransitioning : Bool
  transitionAlpha : ℤ
deriving DecidableEq, Repr

/-- `SceneManager.TRANSITION_SPEED` (5). -/
def TRANSITION_SPEED : ℤ := 5

/-- Freshly constructed scene manager: `TITLE`, no pending state, not
transitioning, alpha 0. -/
def SceneManager.init : SceneManager :=
  { currentState := .TITLE
    nextState := none
    isTransitioning := false
    transitionAlpha := 0 }

/-- `SceneManager.changeState`: accepted (pending state recorded and the
transition started) only when not already transitioning; otherwise the
request leaves the state untouched. -/
def changeState (s : SceneManager) (t : GameState) : SceneManager :=
  if s.isTransitioning = false then
    { s with nextState := some t, isTransitioning := true }
  else s

/-- `SceneManager.updateTransition`: early return when no pending state;
while `alpha < 255` fade out by `TRANSITION_SPEED` (capped at 255);
otherwise swap `currentState` to the pending state and step alpha down
(floored at 0), clearing the transition exactly when alpha reaches 0. -/
def updateTransition (s : SceneManager) : SceneManager :=
  match s.nextState with
  | none => s
  | some t =>
    if s.transitionAlpha < 255 then
      { s with transitionAlpha := min 255 (s.transitionAlpha + TRANSITION_SPEED) }
    else
      let a := max 0 (s.transitionAlpha - TRANSITION_SPEED)
      if a = 0 then
        { s with currentState := t, transitionAlpha := a,
                 isTransitioning := false, nextState := none }
      else
        { s with currentState := t, transitionAlpha := a }

/-- `SceneManager.update` restricted to the manager's own fields: while
transitioning only `updateTransition` runs; otherwise the active state's
update handler runs, and no registered handler (`updateTitle`,
`updatePlaying`, `updatePaused`, `updateGameOver`) writes any manager
field. -/
def smStep (s : SceneManager) : SceneManager :=
  if s.isTransitioning = true then updateTransition s else s

/-- Manager state after `n` ticks of `SceneManager.update`. -/
def smStepIter : ℕ → SceneManager → SceneManager
  | 0, s => s
  | n + 1, s => smStep (smStepIter n s)

/-- `SceneManager.update` with the registered per-state update handlers
made explicit as world transformers: while transitioning only the
transition advances and the world is untouched; otherwise the handler
bound to the current state runs on the world (`setupScenes` registers a
handler for every state, so the table is total). -/
def smUpdate {W : Type} (h : GameState → W → W) (s : SceneManager) (w : W) :
    SceneManager × W :=
  if s.isTransitioning = true then (updateTransition s, w)
  else (s, h s.currentState w)

/-- World-carrying manager state after `n` ticks of `SceneManager.update`. -/
def smUpdateIter {W : Type} (h : GameState → W → W) :
    ℕ → SceneManager × W → SceneManager × W
  | 0, sw => sw
  | n + 1, sw =>
    smUpdate h (smUpdateIter h n sw).1 (smUpdateIter h n sw).2

/-- The manager right after the title screen requests
`changeState(GameState.PLAYING)`. -/
def startPlaying : SceneManager := changeState SceneManager.init .PLAYING

/-- Example handler table whose every handler visibly mutates the world,
used to witness that transitions freeze the world. -/
def bumpHandlers : GameState → ℤ → ℤ := fun _ w => w + 1

/-- Gauge invariant claimed by the spec: every gauge lies in `[0, max]`
(the maxima are the constants fixed by `Player.__init__`). -/
def gaugeInv (s : Player) : Prop :=
  s.maxHp = 100 ∧ s.maxStamina = 100 ∧ s.maxOxygen = 100 ∧
  0 ≤ s.hp ∧ s.hp ≤ s.maxHp ∧
  0 ≤ s.stamina ∧ s.stamina ≤ s.maxStamina ∧
  0 ≤ s.oxygen ∧ s.oxygen ≤ s.maxOxygen

/-- Player states reachable in the game: the initial player, closed under
one tick of `Player.update` with an arbitrary key snapshot, under
`takeDamage` with a nonnegative damage amount (every damage source in the
repository is an enemy's `damage = 10`), and under `heal` with a
nonnegative amount. -/
inductive Reachable : Player → Prop where
  | init : Reachable initPlayer
  | step (s : Player) (k : Keys) : Reachable s → Reachable (playerUpdate k s)
  | damage (s : Player) (d : ℕ) : Reachable s → Reachable (s.takeDamage d)
  | heal (s : Player) (a : ℕ) : Reachable s → Reachable (s.heal a)

/-- Concrete bubble whose 16×16 box sits at (110, 110). -/
def cBubble : Bubble :=
  { position := ⟨118, 118⟩
    velocity := ⟨8, 0⟩
    rect := ⟨110, 110, 16, 16⟩
    power := 10
    lifetime := 60
    isActive := true }

/-- Concrete second bubble whose box sits at (112, 112). -/
def cBubble2 : Bubble :=
  { position := ⟨120, 120⟩
    velocity := ⟨8, 0⟩
    rect := ⟨112, 112, 16, 16⟩
    power := 10
    lifetime := 60
    isActive := true }

/-- Concrete jellyfish (hp 5, damage 10) whose 32×32 box sits at
(105, 105), overlapping `cBubble`, `cBubble2` and `cPlayer`. -/
def cEnemy : Enemy :=
  { position := ⟨105, 105⟩
    velocity := ⟨0, 0⟩
    rect := ⟨105, 105, 32, 32⟩
    maxHp := 5
    hp := 5
    damage := 10
    moveSpeed := 3 / 2
    isAlive := true
    facingRight := true }

/-- Concrete player whose 48×48 box sits at (100, 100), carrying
`cBubble`. -/
def cPlayer : Player :=
  { position := ⟨100, 100⟩
    velocity := ⟨0, 0⟩
    acceleration := ⟨0, 0⟩
    rect := ⟨100, 100, 48, 48⟩
    maxHp := 100
    hp := 100
    maxStamina := 100
    stamina := 100
    maxOxygen := 100
    oxygen := 100
    power := 10
    currentBubbleCooldown := 0
    isDashing := false
    isInvincible := false
    facingRight := true
    bubbles := [cBubble] }

/-- The same player carrying both bubbles. -/
def cPlayer2 : Player := { cPlayer with bubbles := [cBubble, cBubble2] }

/-- A tougher enemy (hp 20) at the same spot, surviving one bubble. -/
def cEnemyTough : Enemy := { cEnemy with maxHp := 20, hp := 20 }

/-- A bubble-less player with exactly `DASH_COST` stamina. -/
def s20 : Player := { cPlayer with bubbles := [], stamina := 20 }

/-- A bubble-less player with stamina below `DASH_COST`. -/
def s10 : Player := { cPlayer with bubbles := [], stamina := 10 }

/-- An enemy that overlaps nothing (far corner). -/
def farEnemy : Enemy := { cEnemy with rect := ⟨700, 500, 32, 32⟩ }

/-- A bubble-less player used for removal witnesses. -/
def plainPlayer : Player := { cPlayer with bubbles := [] }

/-- Bubble fired at (100, 300) moving right, as `Bubble(100, 300, (1,0), 10)`. -/
def wBubble : Bubble := mkBubble 100 300 ⟨1, 0⟩ 10

/-- Player pushed past the left edge with nonzero velocity. -/
def oobPlayer : Player :=
  { cPlayer with bubbles := [], rect := ⟨-5, 200, 48, 48⟩,
                 velocity := ⟨-3, 2⟩, position := ⟨-5, 200⟩ }

/-- Enemy pushed past the left edge with nonzero velocity. -/
def oobEnemy : Enemy :=
  { cEnemy with rect := ⟨-5, 200, 32, 32⟩,
                velocity := ⟨-3, 2⟩, position := ⟨-5, 200⟩ }

/-- Invariant pinning the stuck transition to `PLAYING`: transitioning,
pending state `PLAYING`, current state already swapped to `PLAYING`. -/
def smPinned (s : SceneManager) : Prop :=
  s.isTransitioning = true ∧ s.nextState = some GameState.PLAYING ∧
  s.currentState = GameState.PLAYING

instance (s : SceneManager) : Decidable (smPinned s) := by
  unfold smPinned; infer_instance

/-- Gauge-field tuple of a player, used to transport `gaugeInv` across
update steps that do not write any gauge. -/
def gauges (s : Player) : ℤ × ℤ × ℚ × ℚ × ℚ × ℚ :=
  (s.maxHp, s.hp, s.maxStamina, s.stamina, s.maxOxygen, s.oxygen)

/-- An already-dead enemy overlapping `cPlayer`. -/
def deadEnemy : Enemy := { cEnemy with hp := 0, isAlive := false }

/-!  Helper lemmas (shared across the claim theorems). -/

theorem updateTransition_keeps (s : SceneManager)
    (h : s.isTransitioning = true) :
    (updateTransition s).isTransitioning = true := by
  unfold updateTransition TRANSITION_SPEED
  cases hn : s.nextState with
  | none => exact h
  | some t =>
    dsimp only
    split_ifs with h1 h2
    · exact h
    · omega
    · exact h

theorem smStep_keeps (s : SceneManager) (h : s.isTransitioning = true) :
    (smStep s).isTransitioning = true := by
  unfold smStep
  rw [if_pos h]
  exact updateTransition_keeps s h

theorem smStepIter_keeps (n : ℕ) (s : SceneManager)
    (h : s.isTransitioning = true) :
    (smStepIter n s).isTransitioning = true := by
  induction n with
  | zero => exact h
  | succ n ih => exact smStep_keeps _ ih


theorem smStep_pinned (s : SceneManager) (h : smPinned s) :
    smPinned (smStep s) := by
  obtain ⟨h1, h2, h3⟩ := h
  unfold smStep updateTransition TRANSITION_SPEED
  rw [if_pos h1, h2]
  dsimp only
  split_ifs with ha hz
  · exact ⟨h1, rfl, h3⟩
  · omega
  · exact ⟨h1, rfl, rfl⟩

theorem smStepIter_pinned (n : ℕ) (s : SceneManager) (h : smPinned s) :
    smPinned (smStepIter n s) := by
  induction n with
  | zero => exact h
  | succ n ih => exact smStep_pinned _ ih

theorem smStepIter_add (n m : ℕ) (s : SceneManager) :
    smStepIter (n + m) s = smStepIter m (smStepIter n s) := by
  induction m with
  | zero => rfl
  | succ m ih =>
    show smStep (smStepIter (n + m) s) = _
    rw [ih]
    rfl

set_option maxRecDepth 8000 in
/-- C5 (code_bug evidence): a `changeState` request made while a
transition is in flight is a strict no-op (all four manager fields
unchanged); but the `Title → Playing` transition never completes — after
the swap at alpha 255 the alpha oscillates in the fade-out branch, so
`isTransitioning` stays true on every subsequent tick, while
`currentState` is `PLAYING` from tick 52 on (and hence never the dropped
`PAUSED` target). -/
theorem c5_transition_drop_and_stuck :
    (∀ (s : SceneManager) (t : GameState),
        s.isTransitioning = true → changeState s t = s) ∧
    (∀ n : ℕ, (smStepIter n startPlaying).isTransitioning = true) ∧
    (∀ n : ℕ, 52 ≤ n →
        (smStepIter n startPlaying).currentState = GameState.PLAYING) := by
  refine ⟨?_, ?_, ?_⟩
  · intro s t h
    unfold changeState
    rw [if_neg (by simp [h])]
  · intro n
    exact smStepIter_keeps n startPlaying (by decide)
  · intro n hn
    have hbase : smPinned (smStepIter 52 startPlaying) := by decide
    have key := smStepIter_pinned (n - 52) _ hbase
    rw [← smStepIter_add] at key
    rw [show 52 + (n - 52) = n by omega] at key
    exact key.2.2

/-- C5 witness: a concrete dropped request and the stuck transition at
tick 200. -/
theorem c5_witness :
    changeState (smStepIter 10 startPlaying) GameState.PAUSED =
      smStepIter 10 startPlaying ∧
    (smStepIter 200 startPlaying).isTransitioning = true ∧
    (smStepIter 200 startPlaying).currentState = GameState.PLAYING :=
  ⟨c5_transition_drop_and_stuck.1 _ _ (by decide),
   c5_transition_drop_and_stuck.2.1 200,
   c5_transition_drop_and_stuck.2.2 200 (by norm_num)⟩

/-- C10: while a transition is in flight, `SceneManager.update` only
advances the transition — it never invokes the registered per-state
update handler, so the handled world is identical after any number of
transitioning ticks. -/
theorem c10_transition_freezes_world {W : Type} (h : GameState → W → W)
    (s : SceneManager) (w : W) (ht : s.isTransitioning = true) :
    smUpdate h s w = (updateTransition s, w) ∧
    ∀ n : ℕ, (smUpdateIter h n (s, w)).2 = w := by
  have key : ∀ n : ℕ,
      (smUpdateIter h n (s, w)).1.isTransitioning = true ∧
      (smUpdateIter h n (s, w)).2 = w := by
    intro n
    induction n with
    | zero => exact ⟨ht, rfl⟩
    | succ n ih =>
      obtain ⟨i1, i2⟩ := ih
      constructor
      · show (smUpdate h (smUpdateIter h n (s, w)).1
              (smUpdateIter h n (s, w)).2).1.isTransitioning = true
        unfold smUpdate
        rw [if_pos i1]
        exact updateTransition_keeps _ i1
      · show (smUpdate h (smUpdateIter h n (s, w)).1
              (smUpdateIter h n (s, w)).2).2 = w
        unfold smUpdate
        rw [if_pos i1]
        exact i2
  constructor
  · unfold smUpdate
    rw [if_pos ht]
  · exact fun n => (key n).2

/-- C10 witness: with handlers that visibly bump an integer world, ten
transitioning ticks leave the world untouched. -/
theorem c10_witness :
    smUpdate bumpHandlers startPlaying 0 = (updateTransition startPlaying, 0) ∧
    (smUpdateIter bumpHandlers 10 (startPlaying, (0 : ℤ))).2 = 0 :=
  ⟨(c10_transition_freezes_world bumpHandlers startPlaying 0 (by decide)).1,
   (c10_transition_freezes_world bumpHandlers startPlaying 0 (by decide)).2 10⟩

theorem handleInput_isInvincible (k : Keys) (s : Player) :
    (handleInput k s).isInvincible = s.isInvincible := by
  unfold handleInput shootBubble
  dsimp only
  split_ifs <;> rfl

theorem cooldownStep_isInvincible (s : Player) :
    (cooldownStep s).isInvincible = s.isInvincible := by
  unfold cooldownStep
  split_ifs <;> rfl

theorem physicsStep_isInvincible (s : Player) :
    (physicsStep s).isInvincible = s.isInvincible := rfl

theorem updateBubbles_isInvincible (s : Player) :
    (updateBubbles s).isInvincible = s.isInvincible := rfl

theorem regenerateStatus_isInvincible (s : Player) :
    (regenerateStatus s).isInvincible = s.isInvincible := by
  unfold regenerateStatus
  dsimp only
  split_ifs <;> rfl

theorem constrainToScreen_isInvincible (s : Player) :
    s.constrainToScreen.isInvincible = s.isInvincible := by
  unfold Player.constrainToScreen
  dsimp only
  split_ifs <;> rfl

theorem playerUpdate_isInvincible (k : Keys) (s : Player) :
    (playerUpdate k s).isInvincible = s.isInvincible := by
  unfold playerUpdate
  rw [constrainToScreen_isInvincible, regenerateStatus_isInvincible,
      updateBubbles_isInvincible, physicsStep_isInvincible,
      cooldownStep_isInvincible, handleInput_isInvincible]

/-- C4 (code_bug evidence): `Player.update` never clears `isInvincible`:
once `takeDamage` sets the flag, any number of ticks under any input
sequence leaves it set, so no finite duration N restores the player's
damage-ability — the claimed (and spec-intended) expiry does not exist
in the code. -/
theorem c4_invincibility_never_expires (f : ℕ → Keys) (n : ℕ) (s : Player)
    (h : s.isInvincible = true) : (playerRun f n s).isInvincible = true := by
  induction n with
  | zero => exact h
  | succ n ih =>
    show (playerUpdate (f n) (playerRun f n s)).isInvincible = true
    rw [playerUpdate_isInvincible]
    exact ih

/-- C4 witness: 120 no-input ticks after one hit still leave the flag
set (in particular N = 60 does not clear it). -/
theorem c4_witness :
    (playerRun (fun _ => noKeys) 120 (cPlayer.takeDamage 10)).isInvincible
      = true :=
  c4_invincibility_never_expires _ 120 _ (by decide)

/-- C8: arena clamping is asymmetric — whenever the player's box crosses
an arena edge on an axis, `Player.constrainToScreen` clamps the box to
that edge and zeroes that axis's velocity component; the enemy's
`constrainToScreen` clamps the box the same way but never touches the
velocity (for boxes no wider/taller than the arena). -/
theorem c8_clamp_asymmetry :
    (∀ s : Player, s.rect.x < 0 →
        s.constrainToScreen.rect.x = 0 ∧ s.constrainToScreen.velocity.x = 0) ∧
    (∀ s : Player, s.rect.w ≤ 800 → s.rect.x + s.rect.w > 800 →
        s.constrainToScreen.rect.x + s.constrainToScreen.rect.w = 800 ∧
        s.constrainToScreen.velocity.x = 0) ∧
    (∀ s : Player, s.rect.y < 0 →
        s.constrainToScreen.rect.y = 0 ∧ s.constrainToScreen.velocity.y = 0) ∧
    (∀ s : Player, s.rect.h ≤ 600 → s.rect.y + s.rect.h > 600 →
        s.constrainToScreen.rect.y + s.constrainToScreen.rect.h = 600 ∧
        s.constrainToScreen.velocity.y = 0) ∧
    (∀ e : Enemy, e.constrainToScreen.velocity = e.velocity) ∧
    (∀ e : Enemy, e.rect.x < 0 → e.constrainToScreen.rect.x = 0) ∧
    (∀ e : Enemy, e.rect.w ≤ 800 → e.rect.x + e.rect.w > 800 →
        e.constrainToScreen.rect.x + e.constrainToScreen.rect.w = 800) ∧
    (∀ e : Enemy, e.rect.y < 0 → e.constrainToScreen.rect.y = 0) ∧
    (∀ e : Enemy, e.rect.h ≤ 600 → e.rect.y + e.rect.h > 600 →
        e.constrainToScreen.rect.y + e.constrainToScreen.rect.h = 600) := by
  refine ⟨?_, ?_, ?_, ?_, ?_, ?_, ?_, ?_, ?_⟩
  · intro s h
    unfold Player.constrainToScreen
    dsimp only
    split_ifs <;> (try dsimp only at *) <;> constructor <;> first | rfl | omega
  · intro s hw h
    unfold Player.constrainToScreen
    dsimp only
    split_ifs <;> (try dsimp only at *) <;> constructor <;> first | rfl | omega
  · intro s h
    unfold Player.constrainToScreen
    dsimp only
    split_ifs <;> (try dsimp only at *) <;> constructor <;> first | rfl | omega
  · intro s hh h
    unfold Player.constrainToScreen
    dsimp only
    split_ifs <;> (try dsimp only at *) <;> constructor <;> first | rfl | omega
  · intro e
    unfold Enemy.constrainToScreen
    dsimp only
    split_ifs <;> rfl
  · intro e h
    unfold Enemy.constrainToScreen
    dsimp only
    split_ifs <;> (try dsimp only at *) <;> first | rfl | omega
  · intro e hw h
    unfold Enemy.constrainToScreen
    dsimp only
    split_ifs <;> (try dsimp only at *) <;> first | rfl | omega
  · intro e h
    unfold Enemy.constrainToScreen
    dsimp only
    split_ifs <;> (try dsimp only at *) <;> first | rfl | omega
  · intro e hh h
    unfold Enemy.constrainToScreen
    dsimp only
    split_ifs <;> (try dsimp only at *) <;> first | rfl | omega


/-- C8 witness: concrete actors past the left edge — the player's box is
clamped with its x-velocity zeroed, the enemy's box is clamped with its
velocity fully preserved. -/
theorem c8_witness :
    (oobPlayer.constrainToScreen.rect.x = 0 ∧
     oobPlayer.constrainToScreen.velocity.x = 0) ∧
    oobEnemy.constrainToScreen.velocity = oobEnemy.velocity ∧
    oobEnemy.constrainToScreen.rect.x = 0 :=
  ⟨c8_clamp_asymmetry.1 oobPlayer (by decide),
   c8_clamp_asymmetry.2.2.2.2.1 oobEnemy,
   c8_clamp_asymmetry.2.2.2.2.2.1 oobEnemy (by decide)⟩

/-- C6 counterexample: with stamina 20 and the dash key held, one
`handleInput` sets `isDashing` but leaves stamina exactly
19.68 = 20 − 20·0.016, which differs from the claimed
20 − 20·(1/60) ≈ 19.67. -/
theorem c6_counterexample :
    (handleInput dashKeys s20).isDashing = true ∧
    (handleInput dashKeys s20).stamina = 492 / 25 ∧
    (handleInput dashKeys s20).stamina ≠ 20 - 20 * (1 / 60 : ℚ) := by
  refine ⟨?_, ?_, ?_⟩ <;>
    norm_num [handleInput, shootBubble, dashKeys, s20, cPlayer, DASH_COST,
      MOVE_SPEED, BUBBLE_COOLDOWN]

/-- C6 amended: the source's tick-duration constant is the hard-coded
0.016 (not 1/60): one dash tick from `stamina = 20 = DASH_COST` sets
`isDashing` and leaves `stamina = 20 − 20·0.016 = 19.68`; and whenever
`stamina < DASH_COST`, `handleInput` never sets `isDashing`, whatever
keys are held. -/
theorem c6_amended :
    (∀ s : Player, s.stamina = 20 →
        (handleInput dashKeys s).isDashing = true ∧
        (handleInput dashKeys s).stamina = 20 - DASH_COST * (16 / 1000)) ∧
    (∀ (s : Player) (k : Keys), s.stamina < DASH_COST →
        (handleInput k s).isDashing = false) := by
  constructor
  · intro s hs
    unfold handleInput shootBubble dashKeys
    dsimp only
    have hdash : true = true ∧ DASH_COST ≤ s.stamina :=
      ⟨rfl, by rw [hs]; norm_num [DASH_COST]⟩
    rw [if_pos hdash, if_neg (by simp)]
    exact ⟨rfl, by rw [hs]⟩
  · intro s k hlow
    unfold handleInput shootBubble
    dsimp only
    split_ifs <;>
      first
        | rfl
        | exact absurd
            (‹k.shift = true ∧ DASH_COST ≤ s.stamina›).2 (not_le.mpr hlow)

/-- C6 witness: the amended dash arithmetic at stamina 20, and no dash
at stamina 10. -/
theorem c6_witness :
    ((handleInput dashKeys s20).isDashing = true ∧
     (handleInput dashKeys s20).stamina = 20 - DASH_COST * (16 / 1000)) ∧
    (handleInput dashKeys s10).isDashing = false :=
  ⟨c6_amended.1 s20 rfl,
   c6_amended.2 s10 dashKeys (by norm_num [s10, cPlayer, DASH_COST])⟩

theorem gaugeInv_of_gauges_eq {a b : Player} (hg : gauges a = gauges b)
    (h : gaugeInv b) : gaugeInv a := by
  unfold gauges at hg
  simp only [Prod.mk.injEq] at hg
  obtain ⟨g1, g2, g3, g4, g5, g6⟩ := hg
  unfold gaugeInv at *
  rw [g1, g2, g3, g4, g5, g6]
  exact h

theorem cooldownStep_gauges (s : Player) :
    gauges (cooldownStep s) = gauges s := by
  unfold cooldownStep
  split_ifs <;> rfl

theorem physicsStep_gauges (s : Player) :
    gauges (physicsStep s) = gauges s := rfl

theorem updateBubbles_gauges (s : Player) :
    gauges (updateBubbles s) = gauges s := rfl

theorem constrainToScreen_gauges (s : Player) :
    gauges s.constrainToScreen = gauges s := by
  unfold Player.constrainToScreen
  dsimp only
  split_ifs <;> rfl

theorem handleInput_gaugeInv (k : Keys) (s : Player) (h : gaugeInv s) :
    gaugeInv (handleInput k s) := by
  obtain ⟨h1, h2, h3, h4, h5, h6, h7, h8, h9⟩ := h
  unfold handleInput shootBubble DASH_COST
  dsimp only
  split_ifs with hd hs1 hs2 <;>
    first
      | exact ⟨h1, h2, h3, h4, h5, h6, h7, h8, h9⟩
      | exact ⟨h1, h2, h3, h4, h5, by linarith [hd.2], by linarith [hd.2],
               h8, h9⟩

theorem regenerateStatus_gaugeInv (s : Player) (h : gaugeInv s) :
    gaugeInv (regenerateStatus s) := by
  obtain ⟨h1, h2, h3, h4, h5, h6, h7, h8, h9⟩ := h
  unfold regenerateStatus
  dsimp only
  split_ifs with hr
  · exact ⟨h1, h2, h3, h4, h5,
      le_min (by rw [h2]; norm_num) (by linarith),
      min_le_left _ _,
      le_max_left _ _,
      max_le (by rw [h3]; norm_num) (by linarith)⟩
  · exact ⟨h1, h2, h3, h4, h5, h6, h7,
      le_max_left _ _,
      max_le (by rw [h3]; norm_num) (by linarith)⟩

theorem playerUpdate_gaugeInv (k : Keys) (s : Player) (h : gaugeInv s) :
    gaugeInv (playerUpdate k s) := by
  unfold playerUpdate
  exact gaugeInv_of_gauges_eq (constrainToScreen_gauges _)
    (regenerateStatus_gaugeInv _
      (gaugeInv_of_gauges_eq (updateBubbles_gauges _)
        (gaugeInv_of_gauges_eq (physicsStep_gauges _)
          (gaugeInv_of_gauges_eq (cooldownStep_gauges _)
            (handleInput_gaugeInv k s h)))))

theorem takeDamage_gaugeInv (s : Player) (d : ℤ) (hd : 0 ≤ d)
    (h : gaugeInv s) : gaugeInv (s.takeDamage d) := by
  obtain ⟨h1, h2, h3, h4, h5, h6, h7, h8, h9⟩ := h
  unfold Player.takeDamage
  split_ifs with hi
  · exact ⟨h1, h2, h3, le_max_left _ _, by dsimp only; omega, h6, h7, h8, h9⟩
  · exact ⟨h1, h2, h3, h4, h5, h6, h7, h8, h9⟩

theorem heal_gaugeInv (s : Player) (a : ℤ) (ha : 0 ≤ a)
    (h : gaugeInv s) : gaugeInv (s.heal a) := by
  obtain ⟨h1, h2, h3, h4, h5, h6, h7, h8, h9⟩ := h
  unfold Player.heal
  exact ⟨h1, h2, h3, by dsimp only; omega, min_le_left _ _, h6, h7, h8, h9⟩

/-- C2: every reachable player state keeps every gauge inside `[0, max]`
— damage and oxygen depletion floor at 0, healing and stamina
regeneration cap at the max, and the dash drain only fires under the
`stamina >= DASH_COST` guard, so it can never underflow. -/
theorem c2_gauges_in_bounds (s : Player) (h : Reachable s) : gaugeInv s := by
  induction h with
  | init =>
    unfold gaugeInv initPlayer mkPlayer
    norm_num
  | step s k hr ih => exact playerUpdate_gaugeInv k s ih
  | damage s d hr ih => exact takeDamage_gaugeInv s d (Int.natCast_nonneg d) ih
  | heal s a hr ih => exact heal_gaugeInv s a (Int.natCast_nonneg a) ih

/-- C2 witness: the initial player is reachable and in bounds. -/
theorem c2_witness : gaugeInv initPlayer :=
  c2_gauges_in_bounds initPlayer Reachable.init

theorem handleInput_phys (k : Keys) (s : Player) :
    (handleInput k s).velocity = s.velocity ∧
    (handleInput k s).position = s.position ∧
    (handleInput k s).rect = s.rect := by
  unfold handleInput shootBubble
  dsimp only
  split_ifs <;> exact ⟨rfl, rfl, rfl⟩

theorem cooldownStep_phys (s : Player) :
    (cooldownStep s).velocity = s.velocity ∧
    (cooldownStep s).position = s.position ∧
    (cooldownStep s).rect = s.rect ∧
    (cooldownStep s).isDashing = s.isDashing ∧
    (cooldownStep s).acceleration = s.acceleration := by
  unfold cooldownStep
  split_ifs <;> exact ⟨rfl, rfl, rfl, rfl, rfl⟩

theorem updateBubbles_phys (s : Player) :
    (updateBubbles s).velocity = s.velocity ∧
    (updateBubbles s).position = s.position ∧
    (updateBubbles s).rect = s.rect := ⟨rfl, rfl, rfl⟩

theorem regenerateStatus_phys (s : Player) :
    (regenerateStatus s).velocity = s.velocity ∧
    (regenerateStatus s).position = s.position ∧
    (regenerateStatus s).rect = s.rect := by
  unfold regenerateStatus
  dsimp only
  split_ifs <;> exact ⟨rfl, rfl, rfl⟩

theorem constrainToScreen_noclamp (s : Player)
    (h1 : 0 ≤ s.rect.x) (h2 : s.rect.x + s.rect.w ≤ 800)
    (h3 : 0 ≤ s.rect.y) (h4 : s.rect.y + s.rect.h ≤ 600) :
    s.constrainToScreen = s := by
  unfold Player.constrainToScreen
  dsimp only
  split_ifs <;> first | rfl | omega

/-- C9: the player tick's physics is exactly
`v' = (v + a_eff) * WATER_RESISTANCE` with `a_eff = a * DASH_SPEED` while
dashing and `a` otherwise, followed by `position' = position + v'`
(whenever the resulting box needs no arena clamp); drag runs after the
acceleration is added on every tick, and with no keys held the input
acceleration is zero and dashing is off, so the velocity contracts by
the factor `WATER_RESISTANCE` each tick. -/
theorem c9_physics_formula :
    (∀ (k : Keys) (s : Player) (v p : Vec2),
      v = vscale WATER_RESISTANCE (vadd s.velocity
            (if (handleInput k s).isDashing = true
             then vscale DASH_SPEED (handleInput k s).acceleration
             else (handleInput k s).acceleration)) →
      p = vadd s.position v →
      0 ≤ pyInt p.x → pyInt p.x + s.rect.w ≤ 800 →
      0 ≤ pyInt p.y → pyInt p.y + s.rect.h ≤ 600 →
      (playerUpdate k s).velocity = v ∧ (playerUpdate k s).position = p) ∧
    (∀ s : Player,
      (handleInput noKeys s).acceleration = ⟨0, 0⟩ ∧
      (handleInput noKeys s).isDashing = false) := by
  constructor
  · intro k s v p hv hp hx1 hx2 hy1 hy2
    obtain ⟨i1, i2, i3⟩ := handleInput_phys k s
    obtain ⟨c1, c2, c3, c4, c5⟩ := cooldownStep_phys (handleInput k s)
    have hV : (physicsStep (cooldownStep (handleInput k s))).velocity = v := by
      unfold physicsStep
      dsimp only
      rw [c1, i1, c4, c5]
      exact hv.symm
    have hP : (physicsStep (cooldownStep (handleInput k s))).position = p := by
      unfold physicsStep
      dsimp only
      rw [c2, i2, c1, i1, c4, c5, ← hv]
      exact hp.symm
    have hR : (physicsStep (cooldownStep (handleInput k s))).rect =
        ⟨pyInt p.x, pyInt p.y, s.rect.w, s.rect.h⟩ := by
      unfold physicsStep
      dsimp only
      rw [c3, i3, c2, i2, c1, i1, c4, c5, ← hv, ← hp]
    have hcon : (regenerateStatus (updateBubbles
        (physicsStep (cooldownStep (handleInput k s))))).constrainToScreen =
        regenerateStatus (updateBubbles
          (physicsStep (cooldownStep (handleInput k s)))) := by
      apply constrainToScreen_noclamp <;>
        rw [(regenerateStatus_phys _).2.2, (updateBubbles_phys _).2.2, hR]
      · exact hx1
      · exact hx2
      · exact hy1
      · exact hy2
    unfold playerUpdate
    rw [hcon]
    constructor
    · rw [(regenerateStatus_phys _).1, (updateBubbles_phys _).1]
      exact hV
    · rw [(regenerateStatus_phys _).2.1, (updateBubbles_phys _).2.1]
      exact hP
  · intro s
    constructor <;> simp [handleInput, shootBubble, noKeys]

theorem pyInt_intCast (n : ℤ) : pyInt ((n : ℚ)) = n := by
  unfold pyInt
  rw [Rat.num_intCast, Rat.den_intCast]
  exact Int.tdiv_one n

theorem pyInt_hundred : pyInt ((100 : ℚ)) = 100 := by
  have h : ((100 : ℤ) : ℚ) = (100 : ℚ) := by norm_num
  rw [← h, pyInt_intCast]

/-- C9 witness: a resting player with no keys held keeps zero velocity
and stays at (100, 100). -/
theorem c9_witness :
    (playerUpdate noKeys plainPlayer).velocity = ⟨0, 0⟩ ∧
    (playerUpdate noKeys plainPlayer).position = ⟨100, 100⟩ := by
  apply c9_physics_formula.1 noKeys plainPlayer ⟨0, 0⟩ ⟨100, 100⟩
  · norm_num [handleInput, shootBubble, noKeys, plainPlayer, cPlayer, vadd,
      vscale, WATER_RESISTANCE, DASH_COST, MOVE_SPEED, BUBBLE_COOLDOWN]
  · norm_num [vadd, plainPlayer, cPlayer]
  · show (0 : ℤ) ≤ pyInt ((100 : ℚ))
    rw [pyInt_hundred]
    norm_num
  · show pyInt ((100 : ℚ)) + plainPlayer.rect.w ≤ 800
    rw [pyInt_hundred]
    norm_num [plainPlayer, cPlayer]
  · show (0 : ℤ) ≤ pyInt ((100 : ℚ))
    rw [pyInt_hundred]
    norm_num
  · show pyInt ((100 : ℚ)) + plainPlayer.rect.h ≤ 600
    rw [pyInt_hundred]
    norm_num [plainPlayer, cPlayer]

theorem vadd_vscale_succ (p v : Vec2) (n : ℕ) :
    vadd (vadd p (vscale (n : ℚ) v)) v =
      vadd p (vscale ((n + 1 : ℕ) : ℚ) v) := by
  ext <;> simp [vadd, vscale] <;> push_cast <;> ring

theorem bubbleUpdate_live (b : Bubble) (hA : b.isActive = true)
    (hL : 1 < b.lifetime) (hw : b.rect.w = 16) (hh : b.rect.h = 16)
    (hIn : bubbleInArena (vadd b.position b.velocity)) :
    bubbleUpdate b = (true,
      { b with lifetime := b.lifetime - 1,
               position := vadd b.position b.velocity,
               rect := { b.rect with
                 x := pyInt (vadd b.position b.velocity).x - 8,
                 y := pyInt (vadd b.position b.velocity).y - 8 } }) := by
  unfold bubbleUpdate
  dsimp only
  rw [if_neg (by simp [hA]), if_neg (by omega),
      if_neg (by rw [hw, hh]; exact hIn)]

theorem bubbleRun_progress (b : Bubble) (hA : b.isActive = true)
    (hL : b.lifetime = 60) (hw : b.rect.w = 16) (hh : b.rect.h = 16)
    (hIn : ∀ j : ℕ, j ≤ 59 → 1 ≤ j →
        bubbleInArena (vadd b.position (vscale (j : ℚ) b.velocity))) :
    ∀ n : ℕ, n ≤ 59 →
      (bubbleRun n b).isActive = true ∧
      (bubbleRun n b).lifetime = 60 - (n : ℤ) ∧
      (bubbleRun n b).velocity = b.velocity ∧
      (bubbleRun n b).position = vadd b.position (vscale (n : ℚ) b.velocity) ∧
      (bubbleRun n b).rect.w = 16 ∧ (bubbleRun n b).rect.h = 16 := by
  intro n
  induction n with
  | zero =>
    intro _
    show b.isActive = true ∧ b.lifetime = 60 - ((0 : ℕ) : ℤ) ∧
      b.velocity = b.velocity ∧
      b.position = vadd b.position (vscale ((0 : ℕ) : ℚ) b.velocity) ∧
      b.rect.w = 16 ∧ b.rect.h = 16
    refine ⟨hA, by rw [hL]; norm_num, rfl, ?_, hw, hh⟩
    ext <;> simp [vadd, vscale]
  | succ n ih =>
    intro hn
    obtain ⟨a1, a2, a3, a4, a5, a6⟩ := ih (by omega)
    have harena : bubbleInArena
        (vadd (bubbleRun n b).position (bubbleRun n b).velocity) := by
      rw [a4, a3, vadd_vscale_succ]
      exact hIn (n + 1) (by omega) (by omega)
    have hstep := bubbleUpdate_live (bubbleRun n b) a1 (by omega) a5 a6 harena
    simp only [bubbleRun]
    rw [hstep]
    dsimp only
    refine ⟨a1, by rw [a2]; push_cast; ring, a3, ?_, a5, a6⟩
    rw [a4, a3, vadd_vscale_succ]

/-- C7: a live bubble with lifetime 60 whose whole trajectory stays
inside the arena returns true from each of its first 59 `update()` calls
and false from the 60th (`bubbleNthCall n` is the return value of call
`n+1`). -/
theorem c7_bubble_lifetime (b : Bubble) (hA : b.isActive = true)
    (hL : b.lifetime = 60) (hw : b.rect.w = 16) (hh : b.rect.h = 16)
    (hIn : ∀ j : ℕ, j ≤ 59 → 1 ≤ j →
        bubbleInArena (vadd b.position (vscale (j : ℚ) b.velocity))) :
    (∀ n : ℕ, n < 59 → bubbleNthCall n b = true) ∧
    bubbleNthCall 59 b = false := by
  have spec := bubbleRun_progress b hA hL hw hh hIn
  constructor
  · intro n hn
    obtain ⟨a1, a2, a3, a4, a5, a6⟩ := spec n (by omega)
    have harena : bubbleInArena
        (vadd (bubbleRun n b).position (bubbleRun n b).velocity) := by
      rw [a4, a3, vadd_vscale_succ]
      exact hIn (n + 1) (by omega) (by omega)
    unfold bubbleNthCall
    rw [bubbleUpdate_live (bubbleRun n b) a1 (by omega) a5 a6 harena]
  · obtain ⟨a1, a2, a3, a4, a5, a6⟩ := spec 59 (by norm_num)
    unfold bubbleNthCall bubbleUpdate
    dsimp only
    rw [if_neg (by simp [a1]), if_pos (by omega)]

/-- C7 witness: the bubble fired at (100, 300) moving right by 8 per
tick stays in the arena; its first and 59th calls return true and its
60th returns false. -/
theorem c7_witness :
    bubbleNthCall 0 wBubble = true ∧ bubbleNthCall 58 wBubble = true ∧
    bubbleNthCall 59 wBubble = false := by
  have main := c7_bubble_lifetime wBubble rfl rfl rfl rfl (by
    intro j hj hj1
    have hx : (vadd wBubble.position (vscale (j : ℚ) wBubble.velocity)).x =
        ((100 + 8 * j : ℤ) : ℚ) := by
      simp [wBubble, mkBubble, vadd, vscale]
      push_cast
      ring
    have hy : (vadd wBubble.position (vscale (j : ℚ) wBubble.velocity)).y =
        ((300 : ℤ) : ℚ) := by
      simp [wBubble, mkBubble, vadd, vscale]
    unfold bubbleInArena
    rw [hx, hy, pyInt_intCast, pyInt_intCast]
    omega)
  exact ⟨main.1 0 (by norm_num), main.1 58 (by norm_num), main.2⟩

theorem takeDamage_bubbles (s : Player) (d : ℤ) :
    (s.takeDamage d).bubbles = s.bubbles := by
  unfold Player.takeDamage
  split_ifs <;> rfl

theorem takeDamage_rect (s : Player) (d : ℤ) :
    (s.takeDamage d).rect = s.rect := by
  unfold Player.takeDamage
  split_ifs <;> rfl

theorem enemyTakeDamage_rect (e : Enemy) (d : ℤ) :
    (e.takeDamage d).rect = e.rect := by
  unfold Enemy.takeDamage Enemy.die
  dsimp only
  split_ifs <;> rfl

theorem enemyTakeDamage_damage (e : Enemy) (d : ℤ) :
    (e.takeDamage d).damage = e.damage := by
  unfold Enemy.takeDamage Enemy.die
  dsimp only
  split_ifs <;> rfl

theorem enemyTakeDamage_survives (e : Enemy) (d : ℤ) (h : d < e.hp)
    (halive : e.isAlive = true) :
    (e.takeDamage d).isAlive = true ∧ (e.takeDamage d).hp = max 0 (e.hp - d) := by
  unfold Enemy.takeDamage Enemy.die
  dsimp only
  split_ifs with h0
  · exact absurd h0 (by omega)
  · exact ⟨halive, rfl⟩

/-- C1 amended: in `src/src/game/main.py` `checkCollisions` the two
pairwise checks are fully independent — a simultaneous bubble∩enemy and
enemy∩player overlap always deals `bubble.power` to the enemy and
`enemy.damage` to the non-invincible player; in `src/main.py`, where the
bubble↔enemy pass runs first and the player↔enemy check is gated on
`enemy.isAlive`, both effects apply provided the enemy survives the
bubble damage (which is dealt from the player's own `power`). -/
theorem c1_both_effects :
    (∀ (p : Player) (e : Enemy) (b : Bubble),
      p.bubbles = [b] →
      b.rect.colliderect e.rect = true →
      p.rect.colliderect e.rect = true →
      p.isInvincible = false →
      (checkCollisions p [e]).1.hp = max 0 (p.hp - e.damage) ∧
      (checkCollisions p [e]).2 = [e.takeDamage b.power]) ∧
    (∀ (p : Player) (e : Enemy) (b : Bubble),
      p.bubbles = [b] →
      e.isAlive = true →
      b.rect.colliderect e.rect = true →
      p.rect.colliderect e.rect = true →
      p.isInvincible = false →
      p.power < e.hp →
      (rootCollisionAndRemoval p [e]).1.hp = max 0 (p.hp - e.damage) ∧
      (rootCollisionAndRemoval p [e]).2 = [e.takeDamage p.power]) := by
  constructor
  · intro p e b hb hbe hpe hI
    unfold checkCollisions bubbleDamageFold
    simp only [List.foldl_cons, List.foldl_nil, List.map_cons, List.map_nil,
      hpe, if_true, takeDamage_bubbles, hb]
    simp only [Player.takeDamage, hI, hbe, if_true]
    refine ⟨?_, ?_⟩ <;> first | trivial | rfl
  · intro p e b hb halive hbe hpe hI hsurv
    obtain ⟨hs1, hs2⟩ := enemyTakeDamage_survives e p.power hsurv halive
    unfold rootCollisionAndRemoval rootBubblesPass rootBubbleEnemyFold
      rootPlayerEnemyPass
    simp only [hb, List.foldl_cons, List.foldl_nil, List.nil_append,
      hbe, halive, and_self, if_true]
    simp only [enemyTakeDamage_rect, hpe, hs1, and_self, if_true,
      enemyTakeDamage_damage, List.filter_cons, List.filter_nil]
    simp only [Player.takeDamage, hI, if_true]
    refine ⟨?_, ?_⟩ <;> first | trivial | rfl

/-- C1 counterexample: in `src/main.py`'s pass the bubble kills the
jellyfish (hp 5 < power 10) before the player↔enemy loop runs; the
`isAlive` gate then skips the overlapping player, whose hp stays 100
instead of dropping to 90 — the bubble↔enemy check pre-empts the
player↔enemy check. -/
theorem c1_counterexample :
    cBubble.rect.colliderect cEnemy.rect = true ∧
    cPlayer.rect.colliderect cEnemy.rect = true ∧
    cEnemy.isAlive = true ∧
    cPlayer.isInvincible = false ∧
    cPlayer.hp = 100 ∧ cEnemy.damage = 10 ∧
    (rootCollisionAndRemoval cPlayer [cEnemy]).1.hp = 100 ∧
    (rootCollisionAndRemoval cPlayer [cEnemy]).1.hp ≠
      max 0 (cPlayer.hp - cEnemy.damage) := by
  decide

/-- C1 witness: both effects at the concrete overlap — the package pass
on the hp-5 jellyfish, the top-level pass on a surviving hp-20 enemy. -/
theorem c1_witness :
    ((checkCollisions cPlayer [cEnemy]).1.hp =
        max 0 (cPlayer.hp - cEnemy.damage) ∧
     (checkCollisions cPlayer [cEnemy]).2 =
        [cEnemy.takeDamage cBubble.power]) ∧
    ((rootCollisionAndRemoval cPlayer [cEnemyTough]).1.hp =
        max 0 (cPlayer.hp - cEnemyTough.damage) ∧
     (rootCollisionAndRemoval cPlayer [cEnemyTough]).2 =
        [cEnemyTough.takeDamage cPlayer.power]) :=
  ⟨c1_both_effects.1 cPlayer cEnemy cBubble rfl (by decide) (by decide) rfl,
   c1_both_effects.2 cPlayer cEnemyTough cBubble rfl rfl (by decide)
     (by decide) rfl (by decide)⟩

theorem bubbleDamageFold_length (b : Bubble) (es : List Enemy) :
    (bubbleDamageFold b es).length = es.length := by
  unfold bubbleDamageFold
  exact List.length_map es _

theorem foldl_bubbleDamage_length (bs : List Bubble) (es : List Enemy) :
    (bs.foldl (fun acc b => bubbleDamageFold b acc) es).length = es.length := by
  induction bs generalizing es with
  | nil => rfl
  | cons b bs ih =>
    show (bs.foldl _ (bubbleDamageFold b es)).length = es.length
    rw [ih, bubbleDamageFold_length]

/-- C3 amended: in `src/main.py` every enemy in the collection at the
start of the next tick is alive (dead enemies are filtered at the end of
the tick), but a mid-pass-killed enemy is skipped by the remaining
`isAlive`-gated checks of the same pass (see the counterexample); in
`src/src/game/main.py` the collection is never filtered (its length is
invariant) and even a dead enemy remains collidable — it still damages
the overlapping player. -/
theorem c3_removal_semantics :
    (∀ (p : Player) (es : List Enemy) (e : Enemy),
        e ∈ (rootCollisionAndRemoval p es).2 → e.isAlive = true) ∧
    (∀ (p : Player) (es : List Enemy),
        ((checkCollisions p es).2).length = es.length) ∧
    (∀ (p : Player) (e : Enemy), p.isInvincible = false →
        e.isAlive = false →
        p.rect.colliderect e.rect = true →
        (checkCollisions p [e]).1.hp = max 0 (p.hp - e.damage)) := by
  refine ⟨?_, ?_, ?_⟩
  · intro p es e hmem
    unfold rootCollisionAndRemoval at hmem
    dsimp only at hmem
    simpa using List.of_mem_filter hmem
  · intro p es
    unfold checkCollisions
    dsimp only
    exact foldl_bubbleDamage_length _ _
  · intro p e hI hdead hpe
    unfold checkCollisions
    simp only [List.foldl_cons, List.foldl_nil, hpe, if_true]
    simp only [Player.takeDamage, hI, if_true]

/-- C3 counterexample: the first bubble kills the jellyfish mid-pass;
the second overlapping bubble's check and the player↔enemy check both
skip the dead enemy (second bubble still active, player hp still 100),
so the enemy is not collidable for the rest of the pass — though it is
indeed gone from the collection afterwards. -/
theorem c3_counterexample :
    cBubble.rect.colliderect cEnemy.rect = true ∧
    cBubble2.rect.colliderect cEnemy.rect = true ∧
    cPlayer2.rect.colliderect cEnemy.rect = true ∧
    cEnemy.isAlive = true ∧ cPlayer2.isInvincible = false ∧
    (rootCollisionAndRemoval cPlayer2 [cEnemy]).2 = [] ∧
    (rootCollisionAndRemoval cPlayer2 [cEnemy]).1.bubbles.map Bubble.isActive
      = [false, true] ∧
    (rootCollisionAndRemoval cPlayer2 [cEnemy]).1.hp = 100 := by
  decide

/-- C3 witness: a surviving enemy is alive in the next tick's collection,
the package pass never shrinks the collection, and its dead enemy still
damages the player. -/
theorem c3_witness :
    farEnemy.isAlive = true ∧
    ((checkCollisions cPlayer [cEnemy]).2).length = [cEnemy].length ∧
    (checkCollisions cPlayer [deadEnemy]).1.hp =
      max 0 (cPlayer.hp - deadEnemy.damage) := by
  have hmem : farEnemy ∈ (rootCollisionAndRemoval plainPlayer [farEnemy]).2 := by
    simp [rootCollisionAndRemoval, rootBubblesPass, rootBubbleEnemyFold,
      rootPlayerEnemyPass, Rect.colliderect, plainPlayer, cPlayer, farEnemy,
      cEnemy, List.filter]
  exact ⟨c3_removal_semantics.1 plainPlayer [farEnemy] farEnemy hmem,
         c3_removal_semantics.2.1 cPlayer [cEnemy],
         c3_removal_semantics.2.2 cPlayer deadEnemy rfl rfl (by decide)⟩
